import Mathlib

/-!
Verification development for the TaskFlow task tracker: a shallow embedding
of the server core (routes, storage layer, realtime handshake) and of the
client date formatting, with theorems about the behaviour of the embedded
operations. Timestamps are modelled as epoch milliseconds (Int); the
relational store is modelled as in-memory lists of rows; fallible code is
modelled with Option and Except.
-/

namespace TaskFlow

/-! ## Calendar arithmetic, modelling the JavaScript Date behaviour.

A date-only string such as "2025-03-01" is parsed by the JS Date
constructor as midnight UTC of that civil date; date-fns format with
pattern yyyy-MM-dd renders the civil date of the instant in the LOCAL
timezone of the client. Offsets are minutes east of UTC. -/

def digitVal (c : Char) : Option Nat :=
  if c = '0' then some 0
  else if c = '1' then some 1
  else if c = '2' then some 2
  else if c = '3' then some 3
  else if c = '4' then some 4
  else if c = '5' then some 5
  else if c = '6' then some 6
  else if c = '7' then some 7
  else if c = '8' then some 8
  else if c = '9' then some 9
  else none

def parseDateChars : List Char → Option (Nat × Nat × Nat)
  | [y1, y2, y3, y4, h1, m1, m2, h2, d1, d2] =>
    if h1 = '-' ∧ h2 = '-' then
      match digitVal y1, digitVal y2, digitVal y3, digitVal y4,
            digitVal m1, digitVal m2, digitVal d1, digitVal d2 with
      | some a, some b, some c, some d, some e, some f, some g, some h =>
        let y := ((a * 10 + b) * 10 + c) * 10 + d
        let m := e * 10 + f
        let dd := g * 10 + h
        if 1 ≤ m ∧ m ≤ 12 ∧ 1 ≤ dd ∧ dd ≤ 31 then some (y, m, dd) else none
      | _, _, _, _, _, _, _, _ => none
    else none
  | _ => none

/-- Parse of a date-only string in the ISO format yyyy-MM-dd. -/
def parseDateOnly (s : String) : Option (Nat × Nat × Nat) := parseDateChars s.toList

/-- Days from the civil epoch 1970-01-01 to the given proleptic Gregorian
date (standard era-based algorithm, valid for years ≥ 1). -/
def daysFromCivil (y m d : Nat) : Int :=
  let yy := if m ≤ 2 then y - 1 else y
  let era := yy / 400
  let yoe := yy % 400
  let mp := (m + 9) % 12
  let doy := (153 * mp + 2) / 5 + d - 1
  let doe := yoe * 365 + yoe / 4 - yoe / 100 + doy
  (era * 146097 + doe : Int) - 719468

/-- Inverse of daysFromCivil: the civil date of a day count since 1970-01-01. -/
def civilFromDays (days : Int) : Nat × Nat × Nat :=
  let z := (days + 719468).toNat
  let era := z / 146097
  let doe := z % 146097
  let yoe := (doe - doe / 1460 + doe / 36524 - doe / 146096) / 365
  let doy := doe - (365 * yoe + yoe / 4 - yoe / 100)
  let mp := (5 * doy + 2) / 153
  let dd := doy - (153 * mp + 2) / 5 + 1
  let mm := if mp < 10 then mp + 3 else mp - 9
  let y := yoe + era * 400
  (if mm ≤ 2 then y + 1 else y, mm, dd)

/-- JS new Date(s) on a date-only string: epoch milliseconds of midnight UTC
of that date, none for a string outside the modelled date-only format
(JS would produce an Invalid Date). -/
def jsNewDate (s : String) : Option Int :=
  (parseDateOnly s).map (fun p => daysFromCivil p.1 p.2.1 p.2.2 * 86400000)

def pad2 (n : Nat) : String := if n < 10 then "0" ++ toString n else toString n

def pad4 (n : Nat) : String :=
  if n < 10 then "000" ++ toString n
  else if n < 100 then "00" ++ toString n
  else if n < 1000 then "0" ++ toString n
  else toString n

/-- date-fns format(new Date(ms), "yyyy-MM-dd") in a client timezone that is
offsetMinutes east of UTC: the civil date of the instant shifted by the
offset, with floor division into days. -/
def formatYMDLocal (ms : Int) (offsetMinutes : Int) : String :=
  let localDays := (ms + offsetMinutes * 60000) / 86400000
  let c := civilFromDays localDays
  pad4 c.1 ++ "-" ++ pad2 c.2.1 ++ "-" ++ pad2 c.2.2

/-! ## JSON values.

Responses and broadcast payloads are rendered into a small JSON tree so
that structural statements (such as: no object in a payload carries a
password field) can be made. Arrays and objects are chain-encoded to keep
the inductive non-nested. -/

inductive JVal where
  | null
  | bool (b : Bool)
  | str (s : String)
  | num (n : Int)
  | arrNil
  | arrCons (head : JVal) (tail : JVal)
  | objNil
  | objCons (key : String) (val : JVal) (tail : JVal)
deriving DecidableEq, Repr

def jArr (xs : List JVal) : JVal := xs.foldr JVal.arrCons JVal.arrNil

def jOptStr : Option String → JVal
  | none => JVal.null
  | some s => JVal.str s

def jOptNum : Option Int → JVal
  | none => JVal.null
  | some n => JVal.num n

/-- True when some object anywhere in the JSON tree has a field named
"password". -/
def hasPasswordKey : JVal → Bool
  | JVal.arrCons h t => hasPasswordKey h || hasPasswordKey t
  | JVal.objCons k v t => k == "password" || hasPasswordKey v || hasPasswordKey t
  | _ => false

/-- Field lookup on a JSON object. -/
def jGet : JVal → String → Option JVal
  | JVal.objCons k v t, key => if k == key then some v else jGet t key
  | _, _ => none

def msgJson (m : String) : JVal := JVal.objCons "message" (JVal.str m) JVal.objNil

/-! ## Data model (shared/schema). -/

inductive Priority where
  | low
  | medium
  | high
  | urgent
deriving DecidableEq, Repr

inductive Status where
  | todo
  | in_progress
  | review
  | completed
deriving DecidableEq, Repr

def priorityText : Priority → String
  | Priority.low => "low"
  | Priority.medium => "medium"
  | Priority.high => "high"
  | Priority.urgent => "urgent"

def statusText : Status → String
  | Status.todo => "todo"
  | Status.in_progress => "in_progress"
  | Status.review => "review"
  | Status.completed => "completed"

structure User where
  id : String
  username : String
  email : String
  password : String
  displayName : Option String
  createdAt : Int
deriving DecidableEq, Repr

/-- UserPublic = Omit of User without the password field. -/
structure UserPublic where
  id : String
  username : String
  email : String
  displayName : Option String
  createdAt : Int
deriving DecidableEq, Repr

/-- toPublicUser: destructures the password out of a user row. -/
def toPublicUser (u : User) : UserPublic :=
  { id := u.id
    username := u.username
    email := u.email
    displayName := u.displayName
    createdAt := u.createdAt }

structure Task where
  id : String
  title : String
  description : Option String
  dueDate : Option Int
  priority : Priority
  status : Status
  creatorId : String
  assignedToId : Option String
  createdAt : Int
  updatedAt : Int
deriving DecidableEq, Repr

/-- TaskWithRelations: a task together with the public projections of its
creator and (nullable) assignee. -/
structure TaskWithRelations extends Task where
  creator : UserPublic
  assignedTo : Option UserPublic
deriving DecidableEq, Repr

/-- Body accepted by insertTaskSchema (after validation). The zod schema
omits id, createdAt, updatedAt and creatorId; priority and status are
optional with database defaults; dueDate is an optional nullable string
(null and absent behave identically at create time, so both map to none). -/
structure InsertTask where
  title : String
  description : Option String
  dueDate : Option String
  priority : Option Priority
  status : Option Status
  assignedToId : Option String
deriving DecidableEq, Repr

/-- Body accepted by updateTaskSchema = insertTaskSchema.partial(). For the
nullable fields the outer Option is field presence in the patch and the
inner Option is the nullable value, so an explicit null and an absent field
are distinguishable. -/
structure UpdateTask where
  title : Option String
  description : Option (Option String)
  dueDate : Option (Option String)
  priority : Option Priority
  status : Option Status
  assignedToId : Option (Option String)
deriving DecidableEq, Repr

structure JWTPayload where
  userId : String
  email : String
deriving DecidableEq, Repr

/-! ## JSON renderings of the response shapes. -/

def userPublicJson (u : UserPublic) : JVal :=
  JVal.objCons "id" (JVal.str u.id)
    (JVal.objCons "username" (JVal.str u.username)
      (JVal.objCons "email" (JVal.str u.email)
        (JVal.objCons "displayName" (jOptStr u.displayName)
          (JVal.objCons "createdAt" (JVal.num u.createdAt) JVal.objNil))))

def jOptUserPublic : Option UserPublic → JVal
  | none => JVal.null
  | some u => userPublicJson u

def taskJson (e : TaskWithRelations) : JVal :=
  JVal.objCons "id" (JVal.str e.id)
    (JVal.objCons "title" (JVal.str e.title)
      (JVal.objCons "description" (jOptStr e.description)
        (JVal.objCons "dueDate" (jOptNum e.dueDate)
          (JVal.objCons "priority" (JVal.str (priorityText e.priority))
            (JVal.objCons "status" (JVal.str (statusText e.status))
              (JVal.objCons "creatorId" (JVal.str e.creatorId)
                (JVal.objCons "assignedToId" (jOptStr e.assignedToId)
                  (JVal.objCons "createdAt" (JVal.num e.createdAt)
                    (JVal.objCons "updatedAt" (JVal.num e.updatedAt)
                      (JVal.objCons "creator" (userPublicJson e.creator)
                        (JVal.objCons "assignedTo" (jOptUserPublic e.assignedTo)
                          JVal.objNil)))))))))))

/-- Payload of task:created and task:updated events: { taskId, data }. -/
def taskEventPayload (e : TaskWithRelations) : JVal :=
  JVal.objCons "taskId" (JVal.str e.id) (JVal.objCons "data" (taskJson e) JVal.objNil)

/-- Payload of task:assigned events: { taskId, userId, data }. -/
def assignedEventPayload (e : TaskWithRelations) (aid : String) : JVal :=
  JVal.objCons "taskId" (JVal.str e.id)
    (JVal.objCons "userId" (JVal.str aid)
      (JVal.objCons "data" (taskJson e) JVal.objNil))

/-- Payload of task:deleted events: { taskId }. -/
def deletedEventPayload (taskId : String) : JVal :=
  JVal.objCons "taskId" (JVal.str taskId) JVal.objNil

/-! ## Storage layer (DatabaseStorage). The relational store is a pair of
row lists; selects by id are find? over the list. -/

def getUser (usersList : List User) (id : String) : Option User :=
  usersList.find? (fun u => u.id == id)

def getUserByEmail (usersList : List User) (email : String) : Option User :=
  usersList.find? (fun u => u.email == email)

def getUserByUsername (usersList : List User) (username : String) : Option User :=
  usersList.find? (fun u => u.username == username)

def findTask (tasksList : List Task) (id : String) : Option Task :=
  tasksList.find? (fun t => t.id == id)

/-- Message of the TypeError thrown when enrichTask destructures a missing
creator row. -/
def destructureMsg : String := "Cannot destructure property password of undefined"

/-- enrichTask: resolves creator and assignee to public projections. The
creator select has no missing-row branch: destructuring a missing creator
throws, modelled as an error. The assignee branch is guarded both by JS
truthiness of assignedToId (null and empty string are falsy) and by a
missing-row fallback to null. -/
def enrichTask (usersList : List User) (t : Task) : Except String TaskWithRelations :=
  match getUser usersList t.creatorId with
  | none => Except.error destructureMsg
  | some creator =>
    let assignedTo : Option UserPublic :=
      match t.assignedToId with
      | some aid => if aid == "" then none else (getUser usersList aid).map toPublicUser
      | none => none
    Except.ok { toTask := t, creator := toPublicUser creator, assignedTo := assignedTo }

/-- The create-time due date: new Date(s) when the field is truthy (present
and not the empty string), null otherwise. -/
def jsDateOrNull (v : Option String) : Option Int :=
  match v with
  | none => none
  | some s => if s == "" then none else jsNewDate s

/-- The freshly inserted row of createTask: server-assigned id and
timestamps, database defaults for omitted priority and status. -/
def createTaskRow (data : InsertTask) (creatorId : String) (newId : String) (now : Int) : Task :=
  { id := newId
    title := data.title
    description := data.description
    dueDate := jsDateOrNull data.dueDate
    priority := data.priority.getD Priority.medium
    status := data.status.getD Status.todo
    creatorId := creatorId
    assignedToId := data.assignedToId
    createdAt := now
    updatedAt := now }

def createTask (usersList : List User) (tasksList : List Task) (data : InsertTask)
    (creatorId : String) (newId : String) (now : Int) :
    List Task × Except String TaskWithRelations :=
  let t := createTaskRow data creatorId newId now
  (tasksList ++ [t], enrichTask usersList t)

/-- updateTask row transformation: spreads the provided fields over the
existing row, always refreshes updatedAt, and re-parses dueDate when the
field is present in the patch (explicit null clears it). -/
def applyUpdate (t : Task) (data : UpdateTask) (now : Int) : Task :=
  { t with
    title := data.title.getD t.title
    description := match data.description with
      | none => t.description
      | some v => v
    dueDate := match data.dueDate with
      | none => t.dueDate
      | some v => jsDateOrNull v
    priority := data.priority.getD t.priority
    status := data.status.getD t.status
    assignedToId := match data.assignedToId with
      | none => t.assignedToId
      | some v => v
    updatedAt := now }

/-- Message of the constraint violation raised by the store when an update
writes an assignee id that references no user row. -/
def fkViolationMsg : String :=
  "insert or update on table tasks violates foreign key constraint tasks_assigned_to_id_users_id_fk"

/-- The update statement applied to the store. The schema declares
assigned_to_id with .references(users.id), so when the statement would
write a non-null assignee that matches no user row into a matched task row,
the store enforces the foreign key and the statement throws, writing
nothing. Otherwise every row whose id matches is rewritten (a missing id
is a no-op, and an unmatched statement checks no constraint). -/
def updateTaskRows (usersList : List User) (tasksList : List Task) (id : String)
    (data : UpdateTask) (now : Int) : Except String (List Task) :=
  match data.assignedToId with
  | some (some aid) =>
    if tasksList.any (fun t => t.id == id) && !(getUser usersList aid).isSome then
      Except.error fkViolationMsg
    else
      Except.ok (tasksList.map (fun t => if t.id == id then applyUpdate t data now else t))
  | _ => Except.ok (tasksList.map (fun t => if t.id == id then applyUpdate t data now else t))

/-- updateTask: runs the update statement (which may throw on the declared
assigned_to_id foreign key), then returns undefined when no row matched, or
the enriched updated row. -/
def updateTask (usersList : List User) (tasksList : List Task) (id : String)
    (data : UpdateTask) (now : Int) :
    List Task × Except String (Option TaskWithRelations) :=
  match updateTaskRows usersList tasksList id data now with
  | Except.error m => (tasksList, Except.error m)
  | Except.ok tasks2 =>
    match findTask tasksList id with
    | none => (tasks2, Except.ok none)
    | some t0 => (tasks2, (enrichTask usersList (applyUpdate t0 data now)).map some)

/-- The delete statement applied to the store. -/
def deleteTaskRows (tasksList : List Task) (id : String) : List Task :=
  tasksList.filter (fun t => !(t.id == id))

/-- deleteTask: deletes the matching rows and reports whether the returning
clause produced at least one deleted row. -/
def deleteTask (tasksList : List Task) (id : String) : List Task × Bool :=
  let returned := tasksList.filter (fun t => t.id == id)
  (deleteTaskRows tasksList id, decide (0 < returned.length))

def getTask (usersList : List User) (tasksList : List Task) (id : String) :
    Except String (Option TaskWithRelations) :=
  match findTask tasksList id with
  | none => Except.ok none
  | some t => (enrichTask usersList t).map some

def insertTaskByCreatedAtDesc (t : Task) : List Task → List Task
  | [] => [t]
  | u :: us =>
    if u.createdAt ≤ t.createdAt then t :: u :: us else u :: insertTaskByCreatedAtDesc t us

/-- orderBy(desc(tasks.createdAt)). -/
def sortTasksByCreatedAtDesc (tasksList : List Task) : List Task :=
  tasksList.foldr insertTaskByCreatedAtDesc []

def getAllTasks (usersList : List User) (tasksList : List Task) :
    Except String (List TaskWithRelations) :=
  (sortTasksByCreatedAtDesc tasksList).mapM (enrichTask usersList)

def getAllUsers (usersList : List User) : List UserPublic :=
  usersList.map toPublicUser

/-! ## Error handling (handleError) and the gateway routes. -/

/-- What a route handler can catch: a zod validation failure carrying its
issue messages, a thrown Error instance carrying its message, or a thrown
non-Error value. -/
inductive ThrownError where
  | zodError (messages : List String)
  | jsError (message : String)
  | other
deriving DecidableEq, Repr

structure Response where
  status : Nat
  body : JVal
deriving DecidableEq, Repr

/-- handleError: a ZodError yields 400 with the first issue message (with a
fallback when the list is empty or the first message is the empty string,
mirroring the JS or-chain); any Error instance yields 400 with the message
of that error; anything else yields 500 with the default message of the
route. -/
def handleError (error : ThrownError) (defaultMessage : String) : Response :=
  match error with
  | ThrownError.zodError msgs =>
    { status := 400
      body := msgJson (match msgs with
        | [] => "Validation error"
        | m :: _ => if m == "" then "Validation error" else m) }
  | ThrownError.jsError m => { status := 400, body := msgJson m }
  | ThrownError.other => { status := 500, body := msgJson defaultMessage }

structure Event where
  name : String
  payload : JVal
deriving DecidableEq, Repr

/-- The server state: the two row stores. -/
structure St where
  users : List User
  tasks : List Task
deriving DecidableEq, Repr

/-- Validated register body. -/
structure RegisterData where
  username : String
  email : String
  password : String
  displayName : Option String
deriving DecidableEq, Repr

/-- POST /api/auth/register after successful validation. hash models
bcrypt.hash; newId and now are the server-assigned id and clock. Cookie
side effects are not modelled. -/
def registerRoute (st : St) (data : RegisterData) (hash : String → String)
    (newId : String) (now : Int) : St × Response :=
  match getUserByEmail st.users data.email with
  | some _ => (st, { status := 400, body := msgJson "Email already in use" })
  | none =>
    match getUserByUsername st.users data.username with
    | some _ => (st, { status := 400, body := msgJson "Username already taken" })
    | none =>
      let user : User :=
        { id := newId
          username := data.username
          email := data.email
          password := hash data.password
          displayName := data.displayName
          createdAt := now }
      ({ st with users := st.users ++ [user] },
       { status := 201
         body := JVal.objCons "user" (userPublicJson (toPublicUser user)) JVal.objNil })

/-- POST /api/auth/login after successful validation. checkPw models
bcrypt.compare (given password against stored hash). -/
def loginRoute (st : St) (email passwordInput : String)
    (checkPw : String → String → Bool) : Response :=
  match getUserByEmail st.users email with
  | none => { status := 401, body := msgJson "Invalid email or password" }
  | some user =>
    if checkPw passwordInput user.password then
      { status := 200
        body := JVal.objCons "user" (userPublicJson (toPublicUser user)) JVal.objNil }
    else { status := 401, body := msgJson "Invalid email or password" }

/-- GET /api/auth/me for an authenticated caller with the given userId. -/
def meRoute (st : St) (userId : String) : Response :=
  match getUser st.users userId with
  | none => { status := 404, body := msgJson "User not found" }
  | some u =>
    { status := 200
      body := JVal.objCons "user" (userPublicJson (toPublicUser u)) JVal.objNil }

/-- GET /api/users. -/
def usersRoute (st : St) : Response :=
  { status := 200, body := jArr ((getAllUsers st.users).map userPublicJson) }

/-- GET /api/tasks. -/
def listTasksRoute (st : St) : Response :=
  match getAllTasks st.users st.tasks with
  | Except.error m => handleError (ThrownError.jsError m) "Failed to get tasks"
  | Except.ok l => { status := 200, body := jArr (l.map taskJson) }

/-- GET /api/tasks/:id. -/
def getTaskRoute (st : St) (id : String) : Response :=
  match getTask st.users st.tasks id with
  | Except.error m => handleError (ThrownError.jsError m) "Failed to get task"
  | Except.ok none => { status := 404, body := msgJson "Task not found" }
  | Except.ok (some e) => { status := 200, body := taskJson e }

/-- POST /api/tasks after successful validation, for the authenticated
creator. Returns the new state, the response, and the broadcast events. -/
def createTaskRoute (st : St) (data : InsertTask) (creatorId : String)
    (newId : String) (now : Int) : St × Response × List Event :=
  match createTask st.users st.tasks data creatorId newId now with
  | (tasks2, Except.error m) =>
    ({ st with tasks := tasks2 }, handleError (ThrownError.jsError m) "Failed to create task", [])
  | (tasks2, Except.ok e) =>
    ({ st with tasks := tasks2 },
     { status := 201, body := taskJson e },
     [{ name := "task:created", payload := taskEventPayload e }])

/-- PATCH /api/tasks/:id after successful validation: existence is checked
first (404 otherwise), the previous assignee is read before the update,
task:updated is emitted on success, and task:assigned is additionally
emitted when the patched assignedToId is truthy and differs from the
previous assignee. -/
def patchRoute (st : St) (id : String) (data : UpdateTask) (now : Int) :
    St × Response × List Event :=
  match findTask st.tasks id with
  | none => (st, { status := 404, body := msgJson "Task not found" }, [])
  | some existingTask =>
    match updateTask st.users st.tasks id data now with
    | (tasks2, Except.error m) =>
      ({ st with tasks := tasks2 }, handleError (ThrownError.jsError m) "Failed to update task", [])
    | (tasks2, Except.ok none) =>
      ({ st with tasks := tasks2 }, { status := 404, body := msgJson "Task not found" }, [])
    | (tasks2, Except.ok (some task)) =>
      let updatedEvent : Event := { name := "task:updated", payload := taskEventPayload task }
      let events :=
        match data.assignedToId with
        | some (some aid) =>
          if aid == "" then [updatedEvent]
          else if some aid == existingTask.assignedToId then [updatedEvent]
          else [updatedEvent,
                { name := "task:assigned", payload := assignedEventPayload task aid }]
        | _ => [updatedEvent]
      ({ st with tasks := tasks2 }, { status := 200, body := taskJson task }, events)

/-- DELETE /api/tasks/:id: existence is checked first (404 otherwise), and
the repository delete result is checked again (404 when it deleted
nothing). -/
def deleteRoute (st : St) (id : String) : St × Response × List Event :=
  match findTask st.tasks id with
  | none => (st, { status := 404, body := msgJson "Task not found" }, [])
  | some _ =>
    match deleteTask st.tasks id with
    | (tasks2, true) =>
      ({ st with tasks := tasks2 },
       { status := 200, body := msgJson "Task deleted successfully" },
       [{ name := "task:deleted", payload := deletedEventPayload id }])
    | (tasks2, false) =>
      ({ st with tasks := tasks2 }, { status := 404, body := msgJson "Task not found" }, [])

/-! ## Realtime channel handshake (io.use middleware). -/

inductive ConnOutcome where
  | rejected (reason : String)
  | connected (user : Option JWTPayload)
deriving DecidableEq, Repr

/-- The handshake middleware: extracts a token (none models both a missing
auth field and a missing cookie), verifies it when truthy, tags the socket
with the decoded identity on success, and always calls next() with no
error, so the connection is accepted in every branch. verify models
jwt.verify, returning none when verification throws. -/
def handshakeMiddleware (token : Option String)
    (verify : String → Option JWTPayload) : ConnOutcome :=
  match token with
  | none => ConnOutcome.connected none
  | some t =>
    if t == "" then ConnOutcome.connected none
    else
      match verify t with
      | some decoded => ConnOutcome.connected (some decoded)
      | none => ConnOutcome.connected none

/-! ## Mutation traces over the task store, for the timestamp invariant. -/

inductive Op where
  | createOp (data : InsertTask) (creatorId : String) (newId : String)
  | updateOp (id : String) (data : UpdateTask)
  | deleteOp (id : String)
deriving DecidableEq, Repr

/-- One storage mutation applied to the task rows at a given server time.
An update statement rejected by the assigned_to_id foreign key writes
nothing. -/
def stepTasks (usersList : List User) (tasksList : List Task) (p : Op × Int) : List Task :=
  match p with
  | (Op.createOp data creatorId newId, now) => tasksList ++ [createTaskRow data creatorId newId now]
  | (Op.updateOp id data, now) =>
    match updateTaskRows usersList tasksList id data now with
    | Except.ok tasks2 => tasks2
    | Except.error _ => tasksList
  | (Op.deleteOp id, _) => deleteTaskRows tasksList id

def runOps (usersList : List User) (tasksList : List Task) (ops : List (Op × Int)) : List Task :=
  ops.foldl (stepTasks usersList) tasksList

/-- Every stored task has createdAt ≤ updatedAt ≤ time. -/
def TimestampsOK (tasksList : List Task) (time : Int) : Prop :=
  ∀ t ∈ tasksList, t.createdAt ≤ t.updatedAt ∧ t.updatedAt ≤ time

/-! ## Helper lemmas about the JSON renderings. -/

lemma hpk_msgJson (m : String) : hasPasswordKey (msgJson m) = false := rfl

lemma hpk_jOptStr (o : Option String) : hasPasswordKey (jOptStr o) = false := by
  cases o <;> rfl

lemma hpk_jOptNum (o : Option Int) : hasPasswordKey (jOptNum o) = false := by
  cases o <;> rfl

lemma hpk_userPublicJson (u : UserPublic) : hasPasswordKey (userPublicJson u) = false := by
  rcases u with ⟨i, un, em, dn, ca⟩
  cases dn <;> rfl

lemma hpk_userWrap (u : UserPublic) :
    hasPasswordKey (JVal.objCons "user" (userPublicJson u) JVal.objNil) = false := by
  rcases u with ⟨i, un, em, dn, ca⟩
  cases dn <;> rfl

lemma hpk_jOptUserPublic (o : Option UserPublic) :
    hasPasswordKey (jOptUserPublic o) = false := by
  rcases o with _ | ⟨i, un, em, dn, ca⟩
  · rfl
  · cases dn <;> rfl

lemma hpk_taskJson (e : TaskWithRelations) : hasPasswordKey (taskJson e) = false := by
  rcases e with ⟨⟨i, ti, de, du, pr, stt, ci, ai, ca, ua⟩, ⟨c1, c2, c3, c4, c5⟩, ato⟩
  rcases ato with _ | ⟨a1, a2, a3, a4, a5⟩ <;> cases de <;> cases du <;> cases ai <;> cases c4 <;>
    first
      | rfl
      | (cases a4 <;> rfl)

lemma hpk_taskEventPayload (e : TaskWithRelations) :
    hasPasswordKey (taskEventPayload e) = false := by
  rcases e with ⟨⟨i, ti, de, du, pr, stt, ci, ai, ca, ua⟩, ⟨c1, c2, c3, c4, c5⟩, ato⟩
  rcases ato with _ | ⟨a1, a2, a3, a4, a5⟩ <;> cases de <;> cases du <;> cases ai <;> cases c4 <;>
    first
      | rfl
      | (cases a4 <;> rfl)

lemma hpk_assignedEventPayload (e : TaskWithRelations) (aid : String) :
    hasPasswordKey (assignedEventPayload e aid) = false := by
  rcases e with ⟨⟨i, ti, de, du, pr, stt, ci, ai, ca, ua⟩, ⟨c1, c2, c3, c4, c5⟩, ato⟩
  rcases ato with _ | ⟨a1, a2, a3, a4, a5⟩ <;> cases de <;> cases du <;> cases ai <;> cases c4 <;>
    first
      | rfl
      | (cases a4 <;> rfl)

lemma hpk_deletedEventPayload (taskId : String) :
    hasPasswordKey (deletedEventPayload taskId) = false := rfl

lemma hpk_handleError (err : ThrownError) (dflt : String) :
    hasPasswordKey (handleError err dflt).body = false := by
  cases err with
  | zodError msgs => exact hpk_msgJson _
  | jsError m => exact hpk_msgJson _
  | other => exact hpk_msgJson _

lemma hpk_jArr (xs : List JVal) : hasPasswordKey (jArr xs) = xs.any hasPasswordKey := by
  induction xs with
  | nil => rfl
  | cons x xs ih => simp [jArr, hasPasswordKey, List.any_cons] at ih ⊢; rw [ih]

lemma updateTaskRows_ok (usersList : List User) (ts : List Task) (id : String)
    (d : UpdateTask) (now : Int) (ts2 : List Task)
    (h : updateTaskRows usersList ts id d now = Except.ok ts2) :
    ts2 = ts.map (fun t => if t.id == id then applyUpdate t d now else t) := by
  revert h
  unfold updateTaskRows
  split
  · split
    · intro h
      exact absurd h (by simp)
    · intro h
      simp only [Except.ok.injEq] at h
      exact h.symm
  · intro h
    simp only [Except.ok.injEq] at h
    exact h.symm

/-- Claim C1: no response returned by any route (register, login, me, users
list, task get, list, create, update, delete) and no broadcast payload ever
contains a password field: every user projection in an API-facing or
broadcast payload has the password stripped. Error responses produced by
handleError are covered as well. -/
theorem password_never_in_payload
    (st : St) (rd : RegisterData) (hash : String → String) (newId : String) (now : Int)
    (email pw : String) (checkPw : String → String → Bool) (userId : String)
    (tid : String) (d : UpdateTask) (ins : InsertTask) (creatorId : String)
    (err : ThrownError) (dflt : String) :
    hasPasswordKey (registerRoute st rd hash newId now).2.body = false ∧
    hasPasswordKey (loginRoute st email pw checkPw).body = false ∧
    hasPasswordKey (meRoute st userId).body = false ∧
    hasPasswordKey (usersRoute st).body = false ∧
    hasPasswordKey (listTasksRoute st).body = false ∧
    hasPasswordKey (getTaskRoute st tid).body = false ∧
    hasPasswordKey (createTaskRoute st ins creatorId newId now).2.1.body = false ∧
    (createTaskRoute st ins creatorId newId now).2.2.any
      (fun ev => hasPasswordKey ev.payload) = false ∧
    hasPasswordKey (patchRoute st tid d now).2.1.body = false ∧
    (patchRoute st tid d now).2.2.any (fun ev => hasPasswordKey ev.payload) = false ∧
    hasPasswordKey (deleteRoute st tid).2.1.body = false ∧
    (deleteRoute st tid).2.2.any (fun ev => hasPasswordKey ev.payload) = false ∧
    hasPasswordKey (handleError err dflt).body = false := by
  refine ⟨?_, ?_, ?_, ?_, ?_, ?_, ?_, ?_, ?_, ?_, ?_, ?_, hpk_handleError err dflt⟩
  · simp only [registerRoute]
    split
    · exact hpk_msgJson _
    · split
      · exact hpk_msgJson _
      · exact hpk_userWrap _
  · simp only [loginRoute]
    split
    · exact hpk_msgJson _
    · split
      · exact hpk_userWrap _
      · exact hpk_msgJson _
  · simp only [meRoute]
    split
    · exact hpk_msgJson _
    · exact hpk_userWrap _
  · simp only [usersRoute]
    rw [hpk_jArr, List.any_eq_false]
    intro x hx
    rcases List.mem_map.mp hx with ⟨u, hu, rfl⟩
    simp [hpk_userPublicJson]
  · simp only [listTasksRoute]
    split
    · exact hpk_handleError _ _
    · rw [hpk_jArr, List.any_eq_false]
      intro x hx
      rcases List.mem_map.mp hx with ⟨t, ht, rfl⟩
      simp [hpk_taskJson]
  · simp only [getTaskRoute]
    split
    · exact hpk_handleError _ _
    · exact hpk_msgJson _
    · exact hpk_taskJson _
  · simp only [createTaskRoute]
    split
    · exact hpk_handleError _ _
    · exact hpk_taskJson _
  · simp only [createTaskRoute]
    split
    · rfl
    · simp [hpk_taskEventPayload]
  · simp only [patchRoute]
    split
    · exact hpk_msgJson _
    · split
      · exact hpk_handleError _ _
      · exact hpk_msgJson _
      · exact hpk_taskJson _
  · simp only [patchRoute]
    split
    · rfl
    · split
      · rfl
      · rfl
      · split
        · split
          · simp [hpk_taskEventPayload]
          · split
            · simp [hpk_taskEventPayload]
            · simp [hpk_taskEventPayload, hpk_assignedEventPayload]
        · simp [hpk_taskEventPayload]
  · simp only [deleteRoute]
    split
    · exact hpk_msgJson _
    · split
      · exact hpk_msgJson _
      · exact hpk_msgJson _
  · simp only [deleteRoute]
    split
    · rfl
    · split
      · simp [hpk_deletedEventPayload]
      · rfl

/-- Claim C3: a login attempt that fails because the email matches no user
and a login attempt that fails because the password does not match the
stored hash produce identical responses, both in status code and body, so
an observer cannot tell which check failed. -/
theorem login_failure_indistinguishable
    (st : St) (e1 p1 e2 p2 : String) (checkPw : String → String → Bool) (u : User)
    (h1 : getUserByEmail st.users e1 = none)
    (h2 : getUserByEmail st.users e2 = some u)
    (h3 : checkPw p2 u.password = false) :
    loginRoute st e1 p1 checkPw = loginRoute st e2 p2 checkPw ∧
    loginRoute st e1 p1 checkPw =
      { status := 401, body := msgJson "Invalid email or password" } := by
  simp [loginRoute, h1, h2, h3]

def c3User : User :=
  { id := "u1", username := "alice", email := "alice@example.com",
    password := "hashed-secret", displayName := none, createdAt := 0 }

def c3St : St := { users := [c3User], tasks := [] }

theorem login_failure_indistinguishable_witness :
    loginRoute c3St "nobody@example.com" "pw" (fun a b => a == b) =
      loginRoute c3St "alice@example.com" "wrong" (fun a b => a == b) ∧
    loginRoute c3St "nobody@example.com" "pw" (fun a b => a == b) =
      { status := 401, body := msgJson "Invalid email or password" } :=
  login_failure_indistinguishable c3St "nobody@example.com" "pw" "alice@example.com" "wrong"
    (fun a b => a == b) c3User (by decide) (by decide) (by decide)

/-- Claim C4, counterexample: an unexpected internal failure that is an
Error instance (here a connection failure) does NOT produce a 500 with the
generic route default; handleError returns 400 carrying the message of the
underlying error, leaking it to the caller. -/
theorem internal_error_leak_cex :
    (handleError (ThrownError.jsError "connect ECONNREFUSED 127.0.0.1:5432")
        "Failed to get tasks").status = 400 ∧
    (handleError (ThrownError.jsError "connect ECONNREFUSED 127.0.0.1:5432")
        "Failed to get tasks").body =
      msgJson "connect ECONNREFUSED 127.0.0.1:5432" ∧
    ¬ (handleError (ThrownError.jsError "connect ECONNREFUSED 127.0.0.1:5432")
        "Failed to get tasks").status = 500 ∧
    ¬ (handleError (ThrownError.jsError "connect ECONNREFUSED 127.0.0.1:5432")
        "Failed to get tasks").body = msgJson "Failed to get tasks" := by
  decide

/-- Claim C4, amended: validation failures produce a 400 with the first
validation message (with a fallback when absent or empty); any thrown Error
instance, expected or not, produces a 400 carrying the message of that
error; only a thrown non-Error value produces the 500 with the generic
default message of the route, and the 500 status occurs exactly there. -/
theorem handleError_taxonomy (dflt m : String) (msgs : List String) :
    (handleError (ThrownError.zodError msgs) dflt).status = 400 ∧
    (handleError (ThrownError.zodError msgs) dflt).body =
      msgJson (match msgs with
        | [] => "Validation error"
        | m0 :: _ => if m0 == "" then "Validation error" else m0) ∧
    handleError (ThrownError.jsError m) dflt = { status := 400, body := msgJson m } ∧
    handleError ThrownError.other dflt = { status := 500, body := msgJson dflt } ∧
    (∀ e : ThrownError, (handleError e dflt).status = 500 ↔ e = ThrownError.other) := by
  refine ⟨rfl, rfl, rfl, rfl, ?_⟩
  intro e
  cases e <;> simp [handleError]

/-- Claim C8: the realtime handshake accepts the connection in every case.
A missing token, an empty token, a token that fails verification: none of
them reject the connection; they merely leave it without an associated
identity. A valid token tags the connection with the decoded identity. -/
theorem handshake_always_accepts (token : Option String)
    (verify : String → Option JWTPayload) :
    (∀ reason, handshakeMiddleware token verify ≠ ConnOutcome.rejected reason) ∧
    handshakeMiddleware none verify = ConnOutcome.connected none ∧
    (∀ t, verify t = none → handshakeMiddleware (some t) verify = ConnOutcome.connected none) ∧
    (∀ t p, ¬ t = "" → verify t = some p →
      handshakeMiddleware (some t) verify = ConnOutcome.connected (some p)) := by
  refine ⟨?_, rfl, ?_, ?_⟩
  · intro reason h
    rcases token with _ | t
    · exact absurd h (by simp [handshakeMiddleware])
    · revert h
      simp only [handshakeMiddleware]
      split
      · simp
      · split <;> simp
  · intro t hv
    simp only [handshakeMiddleware]
    split
    · rfl
    · rw [hv]
  · intro t p ht hv
    have hb : (t == "") = false := by
      simp [ht]
    simp [handshakeMiddleware, hb, hv]

theorem handshake_always_accepts_witness :
    handshakeMiddleware (some "bad-token") (fun _ => none) = ConnOutcome.connected none ∧
    handshakeMiddleware (some "good") (fun _ => some { userId := "u1", email := "a@x" }) =
      ConnOutcome.connected (some { userId := "u1", email := "a@x" }) :=
  ⟨(handshake_always_accepts (some "bad-token") (fun _ => none)).2.2.1 "bad-token" rfl,
   (handshake_always_accepts (some "good") (fun _ => some { userId := "u1", email := "a@x" })).2.2.2
     "good" { userId := "u1", email := "a@x" } (by decide) rfl⟩

/-- Claim C10: enrichment is asymmetric about dangling references. A task
whose assignedToId matches no user row still enriches, with assignedTo set
to null; but the creator lookup has no missing-row branch, so a task whose
creatorId matches no user row does not produce a TaskWithRelations at all
(the destructuring throws). -/
theorem enrichment_asymmetry (usersList : List User) (t : Task) :
    (getUser usersList t.creatorId = none →
      enrichTask usersList t = Except.error destructureMsg) ∧
    (∀ c aid, getUser usersList t.creatorId = some c → t.assignedToId = some aid →
      ¬ aid = "" → getUser usersList aid = none →
      enrichTask usersList t =
        Except.ok { toTask := t, creator := toPublicUser c, assignedTo := none }) := by
  constructor
  · intro h
    simp [enrichTask, h]
  · intro c aid hc ha hne hu
    have hb : (aid == "") = false := by simp [hne]
    simp [enrichTask, hc, ha, hb, hu]

def c10Creator : User :=
  { id := "u1", username := "alice", email := "alice@example.com",
    password := "hash1", displayName := none, createdAt := 0 }

def c10TaskDanglingAssignee : Task :=
  { id := "t1", title := "T", description := none, dueDate := none,
    priority := Priority.medium, status := Status.todo, creatorId := "u1",
    assignedToId := some "ghost", createdAt := 0, updatedAt := 0 }

def c10TaskDanglingCreator : Task :=
  { id := "t2", title := "T2", description := none, dueDate := none,
    priority := Priority.medium, status := Status.todo, creatorId := "ghost",
    assignedToId := none, createdAt := 0, updatedAt := 0 }

theorem enrichment_asymmetry_witness :
    enrichTask [c10Creator] c10TaskDanglingCreator = Except.error destructureMsg ∧
    enrichTask [c10Creator] c10TaskDanglingAssignee =
      Except.ok { toTask := c10TaskDanglingAssignee, creator := toPublicUser c10Creator,
                  assignedTo := none } :=
  ⟨(enrichment_asymmetry [c10Creator] c10TaskDanglingCreator).1 (by decide),
   (enrichment_asymmetry [c10Creator] c10TaskDanglingAssignee).2 c10Creator
     "ghost" (by decide) (by decide) (by decide) (by decide)⟩

/-- Claim C5: GET, PATCH and DELETE on a task id that matches no stored row
each return 404 and never a success; a 404 delete leaves the state
unchanged; and the repository delete result is true exactly when a row with
that id existed (when it is false, the task store is unchanged). -/
theorem missing_task_not_found (st : St) (id : String) (d : UpdateTask) (now : Int)
    (ts : List Task) :
    ((∀ t ∈ st.tasks, ¬ t.id = id) →
      (getTaskRoute st id).status = 404 ∧
      (patchRoute st id d now).2.1.status = 404 ∧
      (deleteRoute st id).2.1.status = 404 ∧
      (deleteRoute st id).1 = st) ∧
    ((deleteTask ts id).2 = true ↔ ∃ t ∈ ts, t.id = id) ∧
    ((deleteTask ts id).2 = false → (deleteTask ts id).1 = ts) := by
  refine ⟨?_, ?_, ?_⟩
  · intro h
    have hf : findTask st.tasks id = none := by
      rw [findTask, List.find?_eq_none]
      intro t ht
      simp only [beq_iff_eq]
      exact h t ht
    exact ⟨by simp [getTaskRoute, getTask, hf],
           by simp [patchRoute, hf],
           by simp [deleteRoute, hf],
           by simp [deleteRoute, hf]⟩
  · simp only [deleteTask, decide_eq_true_eq]
    constructor
    · intro h
      rcases List.exists_mem_of_length_pos h with ⟨x, hx⟩
      rcases List.mem_filter.mp hx with ⟨h1, h2⟩
      exact ⟨x, h1, by simpa using h2⟩
    · rintro ⟨t, ht, hp⟩
      exact List.length_pos.mpr
        (List.ne_nil_of_mem (List.mem_filter.mpr ⟨ht, by simpa using hp⟩))
  · intro h
    have hnp : ¬ 0 < (ts.filter (fun t => t.id == id)).length :=
      of_decide_eq_false h
    simp only [deleteTask, deleteTaskRows]
    rw [List.filter_eq_self]
    intro a ha
    simp only [Bool.not_eq_true']
    by_contra hp
    simp only [Bool.not_eq_false] at hp
    exact hnp (List.length_pos.mpr (List.ne_nil_of_mem (List.mem_filter.mpr ⟨ha, hp⟩)))

def c5Task : Task :=
  { id := "t1", title := "T", description := none, dueDate := none,
    priority := Priority.medium, status := Status.todo, creatorId := "u1",
    assignedToId := none, createdAt := 0, updatedAt := 0 }

def c5St : St := { users := [], tasks := [c5Task] }

theorem missing_task_not_found_witness :
    (getTaskRoute c5St "missing").status = 404 ∧
    (deleteRoute c5St "missing").1 = c5St ∧
    ((deleteTask [c5Task] "t1").2 = true ↔ ∃ t ∈ [c5Task], t.id = "t1") := by
  obtain ⟨h1, h2, h3⟩ :=
    missing_task_not_found c5St "missing"
      { title := none, description := none, dueDate := none, priority := none,
        status := none, assignedToId := none } 0 [c5Task]
  obtain ⟨g1, g2, g3, g4⟩ := h1 (by decide)
  exact ⟨g1, g4, (missing_task_not_found c5St "t1"
      { title := none, description := none, dueDate := none, priority := none,
        status := none, assignedToId := none } 0 [c5Task]).2.1⟩

def c6Task : Task :=
  { id := "t1", title := "Old title", description := some "d", dueDate := some 100,
    priority := Priority.high, status := Status.todo, creatorId := "u1",
    assignedToId := some "u2", createdAt := 1, updatedAt := 1 }

def c6Patch : UpdateTask :=
  { title := none, description := none, dueDate := none, priority := none,
    status := some Status.completed, assignedToId := none }

/-- Claim C6: a partial update applies only the fields present in the patch
and leaves every other field unchanged (id, creatorId and createdAt are
never touched at all), except that updatedAt is always refreshed; for
dueDate, an explicit null clears the stored value while an absent field
leaves it untouched, so the two cases are distinguishable. A successful
store-level update statement rewrites exactly the matching row with this
transformation, and a statement rejected by the assigned_to_id foreign key
writes nothing. -/
theorem update_frame_conditions (t : Task) (d : UpdateTask) (now : Int)
    (usersList : List User) (ts : List Task) (id : String) :
    (applyUpdate t d now).updatedAt = now ∧
    (applyUpdate t d now).id = t.id ∧
    (applyUpdate t d now).creatorId = t.creatorId ∧
    (applyUpdate t d now).createdAt = t.createdAt ∧
    (d.title = none → (applyUpdate t d now).title = t.title) ∧
    (d.description = none → (applyUpdate t d now).description = t.description) ∧
    (d.priority = none → (applyUpdate t d now).priority = t.priority) ∧
    (d.status = none → (applyUpdate t d now).status = t.status) ∧
    (d.assignedToId = none → (applyUpdate t d now).assignedToId = t.assignedToId) ∧
    (d.dueDate = none → (applyUpdate t d now).dueDate = t.dueDate) ∧
    (d.dueDate = some none → (applyUpdate t d now).dueDate = none) ∧
    (∀ tasks2, updateTaskRows usersList ts id d now = Except.ok tasks2 →
      (updateTask usersList ts id d now).1 = tasks2 ∧
      tasks2 = ts.map (fun x => if x.id == id then applyUpdate x d now else x)) ∧
    (∀ m, updateTaskRows usersList ts id d now = Except.error m →
      (updateTask usersList ts id d now).1 = ts) := by
  refine ⟨rfl, rfl, rfl, rfl, ?_, ?_, ?_, ?_, ?_, ?_, ?_, ?_, ?_⟩
  · intro h; simp [applyUpdate, h]
  · intro h; simp [applyUpdate, h]
  · intro h; simp [applyUpdate, h]
  · intro h; simp [applyUpdate, h]
  · intro h; simp [applyUpdate, h]
  · intro h; simp [applyUpdate, h]
  · intro h; simp [applyUpdate, h, jsDateOrNull]
  · intro tasks2 h
    constructor
    · simp only [updateTask, h]
      split <;> rfl
    · exact updateTaskRows_ok usersList ts id d now tasks2 h
  · intro m h
    simp only [updateTask, h]

theorem update_frame_conditions_witness :
    (applyUpdate c6Task c6Patch 9).assignedToId = c6Task.assignedToId ∧
    (applyUpdate c6Task c6Patch 9).title = c6Task.title ∧
    (applyUpdate c6Task c6Patch 9).priority = c6Task.priority ∧
    (applyUpdate c6Task c6Patch 9).updatedAt = 9 ∧
    (applyUpdate c6Task c6Patch 9).dueDate = c6Task.dueDate := by
  obtain ⟨h1, h2, h3, h4, h5, h6, h7, h8, h9, h10, h11, h12, h13⟩ :=
    update_frame_conditions c6Task c6Patch 9 [] [] "t1"
  exact ⟨h9 rfl, h5 rfl, h7 rfl, h1, h10 rfl⟩

lemma stepTasks_timestamps (usersList : List User) (ts : List Task) (time now : Int)
    (op : Op) (h : TimestampsOK ts time) (hle : time ≤ now) :
    TimestampsOK (stepTasks usersList ts (op, now)) now := by
  cases op with
  | createOp data creatorId newId =>
    intro t ht
    rcases List.mem_append.mp ht with hin | hin
    · exact ⟨(h t hin).1, le_trans (h t hin).2 hle⟩
    · have := List.mem_singleton.mp hin
      subst this
      exact ⟨le_refl now, le_refl now⟩
  | updateOp id data =>
    simp only [stepTasks]
    split
    · rename_i tasks2 hok
      rw [updateTaskRows_ok usersList ts id data now tasks2 hok]
      intro t ht
      rcases List.mem_map.mp ht with ⟨x, hx, rfl⟩
      by_cases hxi : (x.id == id) = true
      · rw [if_pos hxi]
        exact ⟨le_trans (h x hx).1 (le_trans (h x hx).2 hle), le_refl now⟩
      · rw [if_neg hxi]
        exact ⟨(h x hx).1, le_trans (h x hx).2 hle⟩
    · intro t ht
      exact ⟨(h t ht).1, le_trans (h t ht).2 hle⟩
  | deleteOp id =>
    intro t ht
    rcases List.mem_filter.mp ht with ⟨hin, _⟩
    exact ⟨(h t hin).1, le_trans (h t hin).2 hle⟩

lemma runOps_timestamps (usersList : List User) (ops : List (Op × Int)) (ts : List Task)
    (time : Int) (h : TimestampsOK ts time)
    (hc : List.Chain (fun a b => a ≤ b) time (ops.map Prod.snd)) :
    ∃ time2, TimestampsOK (runOps usersList ts ops) time2 := by
  induction ops generalizing ts time with
  | nil => exact ⟨time, h⟩
  | cons p rest ih =>
    rcases p with ⟨op, now⟩
    rcases List.chain_cons.mp hc with ⟨h1, h2⟩
    simp only [runOps, List.foldl_cons]
    exact ih (stepTasks usersList ts (op, now)) now
      (stepTasks_timestamps usersList ts time now op h h1) h2

/-- Claim C7: along any trace of storage mutations whose server clock is
nondecreasing, every stored task satisfies updatedAt ≥ createdAt; create
stamps createdAt and updatedAt with the same server-assigned time, and
every update refreshes updatedAt to the server time while never touching
createdAt. Neither timestamp appears in the client-supplied bodies
(InsertTask and UpdateTask carry no timestamp fields). -/
theorem timestamps_invariant (usersList : List User) (ts0 : List Task) (time0 : Int)
    (ops : List (Op × Int)) (h0 : TimestampsOK ts0 time0)
    (hmono : List.Chain (fun a b => a ≤ b) time0 (ops.map Prod.snd)) :
    (∀ t ∈ runOps usersList ts0 ops, t.createdAt ≤ t.updatedAt) ∧
    (∀ data creatorId newId now,
      (createTaskRow data creatorId newId now).createdAt = now ∧
      (createTaskRow data creatorId newId now).updatedAt = now) ∧
    (∀ t d now, (applyUpdate t d now).updatedAt = now ∧
      (applyUpdate t d now).createdAt = t.createdAt) := by
  refine ⟨?_, fun data creatorId newId now => ⟨rfl, rfl⟩, fun t d now => ⟨rfl, rfl⟩⟩
  rcases runOps_timestamps usersList ops ts0 time0 h0 hmono with ⟨time2, h⟩
  exact fun t ht => (h t ht).1

def c7Ins : InsertTask :=
  { title := "T", description := none, dueDate := none, priority := none,
    status := none, assignedToId := none }

def c7Patch : UpdateTask :=
  { title := none, description := none, dueDate := none, priority := none,
    status := some Status.in_progress, assignedToId := none }

def c7Ops : List (Op × Int) :=
  [(Op.createOp c7Ins "u1" "t1", 1), (Op.updateOp "t1" c7Patch, 2)]

def c7Result : Task :=
  { id := "t1", title := "T", description := none, dueDate := none,
    priority := Priority.medium, status := Status.in_progress, creatorId := "u1",
    assignedToId := none, createdAt := 1, updatedAt := 2 }

theorem timestamps_invariant_witness : c7Result.createdAt ≤ c7Result.updatedAt :=
  (timestamps_invariant [] [] 0 c7Ops
    (by intro t ht; exact absurd ht (List.not_mem_nil t))
    (by simp only [c7Ops, List.map_cons, List.map_nil]
        exact List.Chain.cons (by norm_num) (List.Chain.cons (by norm_num) List.Chain.nil))).1
    c7Result (by decide)

lemma updated_name_ne : (("task:updated" : String) == "task:assigned") = false := by decide

lemma assigned_name_eq : (("task:assigned" : String) == "task:assigned") = true := by decide

lemma jGet_taskEventPayload (e : TaskWithRelations) :
    jGet (taskEventPayload e) "taskId" = some (JVal.str e.id) := rfl

lemma jGet_assignedEventPayload (e : TaskWithRelations) (aid : String) :
    jGet (assignedEventPayload e aid) "taskId" = some (JVal.str e.id) := rfl

def c2User : User :=
  { id := "u0", username := "alice", email := "a@x", password := "hash0",
    displayName := none, createdAt := 0 }

def c2User2 : User :=
  { id := "u2", username := "bob", email := "b@x", password := "hash2",
    displayName := none, createdAt := 0 }

def c2Task : Task :=
  { id := "t1", title := "T", description := none, dueDate := none,
    priority := Priority.medium, status := Status.todo, creatorId := "u0",
    assignedToId := some "u0", createdAt := 0, updatedAt := 0 }

def c2St : St := { users := [c2User, c2User2], tasks := [c2Task] }

/-- Claim C2: for every successful PATCH, task:updated is emitted first with
the updated task, and a task:assigned event is additionally emitted (after
it, with the same taskId in its payload) if and only if the patch sets a
non-null assignee that differs from the previous assignee of the task.
Setting assignedToId to the value it already had, or clearing it to null,
never emits task:assigned. The husers hypothesis records that user ids are
server-generated UUIDs, never the empty string; together with the
assigned_to_id foreign key enforced by the store, a successful patch can
only set an assignee that is an existing user id, so the JS truthiness test
in the handler coincides with the non-null test of the claim on every
successful patch. -/
theorem patch_events_characterization (st : St) (id : String) (d : UpdateTask) (now : Int)
    (t0 : Task) (task : TaskWithRelations) (tasks2 : List Task)
    (husers : ∀ u ∈ st.users, ¬ u.id = "")
    (hfind : findTask st.tasks id = some t0)
    (hupd : updateTask st.users st.tasks id d now = (tasks2, Except.ok (some task))) :
    (patchRoute st id d now).2.1 = { status := 200, body := taskJson task } ∧
    ((patchRoute st id d now).2.2.map Event.name = ["task:updated"] ∨
      (patchRoute st id d now).2.2.map Event.name = ["task:updated", "task:assigned"]) ∧
    ((patchRoute st id d now).2.2.any (fun ev => ev.name == "task:assigned") = true ↔
      ∃ aid, d.assignedToId = some (some aid) ∧ ¬ some aid = t0.assignedToId) ∧
    ((patchRoute st id d now).2.2.head? =
      some { name := "task:updated", payload := taskEventPayload task }) ∧
    (∀ ev ∈ (patchRoute st id d now).2.2, jGet ev.payload "taskId" = some (JVal.str task.id)) := by
  simp only [patchRoute, hfind, hupd]
  rcases hA : d.assignedToId with _ | aid2
  · simp [updated_name_ne, jGet_taskEventPayload]
  · rcases aid2 with _ | aid
    · simp [updated_name_ne, jGet_taskEventPayload]
    · have hfind2 : st.tasks.find? (fun t => t.id == id) = some t0 := hfind
      have hok : ∃ t2, updateTaskRows st.users st.tasks id d now = Except.ok t2 := by
        cases hu : updateTaskRows st.users st.tasks id d now with
        | error m => simp [updateTask, hu] at hupd
        | ok t2 => exact ⟨t2, rfl⟩
      rcases hok with ⟨t2, hok⟩
      have hmem0 : t0 ∈ st.tasks := List.mem_of_find?_eq_some hfind2
      have hp0 : (t0.id == id) = true := by simpa using List.find?_some hfind2
      have hany : st.tasks.any (fun t => t.id == id) = true :=
        List.any_eq_true.mpr ⟨t0, hmem0, hp0⟩
      have hsome : (getUser st.users aid).isSome = true := by
        by_contra hns
        have hns2 : (getUser st.users aid).isSome = false := by simpa using hns
        simp [updateTaskRows, hA, hany, hns2] at hok
      rcases Option.isSome_iff_exists.mp hsome with ⟨u, hu⟩
      have hu2 : st.users.find? (fun x => x.id == aid) = some u := hu
      have humem : u ∈ st.users := List.mem_of_find?_eq_some hu2
      have huid : u.id = aid := by simpa using List.find?_some hu2
      have hne : ¬ aid = "" := fun hcon => husers u humem (huid.trans hcon)
      have hE : (aid == "") = false := by simp [hne]
      by_cases hP : (some aid == t0.assignedToId) = true
      · have hPeq : some aid = t0.assignedToId := by simpa using hP
        simp only [hE, hP, updated_name_ne, jGet_taskEventPayload, hPeq]
        simp [updated_name_ne, jGet_taskEventPayload]
        exact fun x hx => hx.symm
      · simp [hE, hP, updated_name_ne, assigned_name_eq, jGet_taskEventPayload,
          jGet_assignedEventPayload]
        exact fun hcon => absurd (by simp [hcon] : (some aid == t0.assignedToId) = true) hP

def c2PatchAssign : UpdateTask :=
  { title := none, description := none, dueDate := none, priority := none,
    status := none, assignedToId := some (some "u2") }

def c2TaskUpd : Task := { c2Task with assignedToId := some "u2", updatedAt := 7 }

def c2Enriched : TaskWithRelations :=
  { toTask := c2TaskUpd, creator := toPublicUser c2User,
    assignedTo := some (toPublicUser c2User2) }

theorem patch_events_characterization_witness :
    (patchRoute c2St "t1" c2PatchAssign 7).2.1 =
      { status := 200, body := taskJson c2Enriched } ∧
    ((patchRoute c2St "t1" c2PatchAssign 7).2.2.any
        (fun ev => ev.name == "task:assigned") = true ↔
      ∃ aid, c2PatchAssign.assignedToId = some (some aid) ∧
        ¬ some aid = c2Task.assignedToId) := by
  obtain ⟨h1, h2, h3, h4, h5⟩ :=
    patch_events_characterization c2St "t1" c2PatchAssign 7 c2Task c2Enriched
      [c2TaskUpd] (by decide) rfl rfl
  exact ⟨h1, h3⟩

def c9User : User :=
  { id := "u1", username := "alice", email := "a@x", password := "hash9",
    displayName := none, createdAt := 0 }

def c9Ins : InsertTask :=
  { title := "March task", description := none, dueDate := some "2025-03-01",
    priority := none, status := none, assignedToId := none }

/-- The stored due date observed by creating a task with dueDate
"2025-03-01" and fetching it back through the repository. -/
def c9FetchedDueDate : Option Int :=
  match getTask [c9User] (createTask [c9User] [] c9Ins "u1" "t1" 0).1 "t1" with
  | Except.ok (some e) => e.dueDate
  | _ => none

/-- Claim C9, counterexample: the due-date string "2025-03-01" is parsed at
create time as midnight UTC (epoch ms 1740787200000) and stored; but the
client formats the stored instant in ITS LOCAL timezone, so on a client
west of UTC (here UTC-05:00, offset -300 minutes) the date-only rendering
is "2025-02-28", not "2025-03-01". The round trip as claimed fails there. -/
theorem due_date_roundtrip_tz_cex :
    c9FetchedDueDate = some 1740787200000 ∧
    formatYMDLocal 1740787200000 (-300) = "2025-02-28" ∧
    ¬ formatYMDLocal 1740787200000 (-300) = "2025-03-01" := by
  decide

/-- Claim C9, amended: the round trip holds on clients whose UTC offset is
nonnegative (up to UTC+14, the largest real offset): creating a task with
dueDate "2025-03-01" stores midnight UTC of that date, and formatting the
stored instant back to yyyy-MM-dd in such a timezone yields exactly
"2025-03-01". On clients with a negative offset it yields "2025-02-28". -/
theorem due_date_roundtrip_nonneg_offset (o : Int) (h0 : 0 ≤ o) (h1 : o ≤ 840) :
    c9FetchedDueDate = some 1740787200000 ∧
    formatYMDLocal 1740787200000 o = "2025-03-01" := by
  refine ⟨by decide, ?_⟩
  have hdays : (1740787200000 + o * 60000 : Int) / 86400000 = 20148 := by
    have h2 : (1740787200000 + o * 60000 : Int) = o * 60000 + 20148 * 86400000 := by
      ring
    rw [h2, Int.add_mul_ediv_right _ _ (by norm_num : (86400000 : Int) ≠ 0)]
    have h3 : (o * 60000 : Int) / 86400000 = 0 := by
      apply Int.ediv_eq_zero_of_lt
      · exact mul_nonneg h0 (by norm_num)
      · omega
    rw [h3]
    norm_num
  simp only [formatYMDLocal, hdays]
  decide

theorem due_date_roundtrip_nonneg_offset_witness :
    c9FetchedDueDate = some 1740787200000 ∧
    formatYMDLocal 1740787200000 0 = "2025-03-01" :=
  due_date_roundtrip_nonneg_offset 0 (by decide) (by decide)

end TaskFlow
